import Mathlib

/-!
# Verification of the rss_ringoccs Fresnel-inversion core against its specification

Shallow embedding of the C sources of the repository.  Real (`double`)
quantities that the settled claims inspect only through comparisons and
rational arithmetic are embedded as exact rationals extended with the IEEE
special values NaN and ±infinity; quantities that genuinely need real
analysis (the Kaiser–Bessel window, which calls `sqrt` and `I0`) are embedded
over `ℝ`.
-/

/-! ## IEEE-style extended values

A C `double` as the sources use it: a finite value (embedded exactly as a
rational), one of the two infinities, or NaN.  The comparison operators
mirror C/IEEE semantics: every comparison with NaN is false, and `==` on
NaN is false even against itself. -/

inductive Fp where
  | nan : Fp
  | posInf : Fp
  | negInf : Fp
  | fin : ℚ → Fp
deriving DecidableEq

/-- C `<` on doubles: false whenever either side is NaN. -/
def Fp.lt : Fp → Fp → Bool
  | .nan, _ => false
  | _, .nan => false
  | .posInf, _ => false
  | .negInf, .negInf => false
  | .negInf, _ => true
  | .fin _, .negInf => false
  | .fin _, .posInf => true
  | .fin a, .fin b => decide (a < b)

/-- C `<=` on doubles: false whenever either side is NaN. -/
def Fp.le : Fp → Fp → Bool
  | .nan, _ => false
  | _, .nan => false
  | .negInf, _ => true
  | .posInf, .posInf => true
  | .posInf, _ => false
  | .fin _, .negInf => false
  | .fin _, .posInf => true
  | .fin a, .fin b => decide (a ≤ b)

/-- C `==` on doubles: false whenever either side is NaN. -/
def Fp.beq : Fp → Fp → Bool
  | .nan, _ => false
  | _, .nan => false
  | .posInf, .posInf => true
  | .negInf, .negInf => true
  | .fin a, .fin b => decide (a = b)
  | _, _ => false

/-! ## `LambertW_Double` (src/rss_ringoccs/diffrec/src/__math_function_lambertw.c)

The source constant `RCPR_EULER_E` (1/e rounded to the printed decimal) from
`src/unnamed/part_000`, embedded as the exact rational the literal denotes. -/

def RCPR_EULER_E : ℚ := 367879441171442321595523770161460867 / 10 ^ 36

/-- The result of `LambertW_Double`'s top-level branch structure.  The
source's Halley iteration (`while (fabs(dx) > EPS) ...`) has no iteration
bound, so the branch that reaches it is represented by the `iterate`
constructor carrying the input; the claims settled here exercise only the
non-iterating branches. -/
inductive LWResult where
  | ret : Fp → LWResult
  | iterate : Fp → LWResult
deriving DecidableEq

/-- Embedding of `LambertW_Double`: the guard
`(x < INFINITY) && (x > -RCPR_EULER_E)` leads to the initial guess and the
Halley loop (`iterate`); otherwise the function returns `-1.0` at exactly
`-RCPR_EULER_E`, NaN below it, and `INFINITY` in the remaining case. -/
def LambertW_Double (x : Fp) : LWResult :=
  if Fp.lt x .posInf && Fp.lt (.fin (-RCPR_EULER_E)) x then
    .iterate x
  else if Fp.beq x (.fin (-RCPR_EULER_E)) then .ret (.fin (-1))
  else if Fp.lt x (.fin (-RCPR_EULER_E)) then .ret .nan
  else .ret .posInf

/-! ## `Resolution_Inverse_Double`
(src/rss_ringoccs/src/special_functions/kaiser_bessel.c, second section)

The middle branch calls the real-valued primitives `exp` and
`LambertW_Double`; the embedding is parametric in those two functions (their
own iterative implementations are modelled separately), so the theorems
below are about the wiring of `Resolution_Inverse_Double` itself. -/

def Resolution_Inverse_Double (lambertW exp : ℚ → ℚ) (x : Fp) : Fp :=
  if Fp.le x (.fin 1) then .nan
  else if Fp.lt x .posInf then
    match x with
    | .fin q =>
        let P1 : ℚ := q / (1 - q)
        .fin (lambertW (P1 * exp P1) - P1)
    | other => other
  else .fin 0

/-! ## `fresnel_transform` strategy dispatch (src/unnamed/part_003, lines 833-847)

`use_fft` and `order` are `unsigned char` values (embedded as `ℕ`); `ecc`,
`peri` and the five perturbation coefficients are `double` values that the
dispatch inspects only through `== 0` comparisons (embedded as exact
rationals). -/

inductive Strategy where
  | simpleFFT : Strategy
  | newton : Strategy
  | perturbedNewton : Strategy
  | ellipse : Strategy
  | fresnel : Strategy
  | legendre : Strategy
deriving DecidableEq

/-- Embedding of the dispatch block of `fresnel_transform`:
`if (use_fft) DiffractionCorrectionSimpleFFT(&dlp); else { ... }`, with the
dangling `else` of the C source attached (per the C grammar) to the
`(dlp.ecc == 0.0) && (dlp.peri == 0.0)` test. -/
def fresnel_transform_dispatch (use_fft order : ℕ) (ecc peri p0 p1 p2 p3 p4 : ℚ) :
    Strategy :=
  if use_fft ≠ 0 then .simpleFFT
  else if order = 0 then
    if ecc = 0 ∧ peri = 0 then
      if p0 = 0 ∧ p1 = 0 ∧ p2 = 0 ∧ p3 = 0 ∧ p4 = 0 then .newton
      else .perturbedNewton
    else .ellipse
  else if order = 1 then .fresnel
  else .legendre

/-! ## `fresnel_transform` post-dispatch control flow (src/unnamed/part_003, lines 815-938)

After the per-array error checks, the wrapper checks the index range,
mallocs `dlp.T_out` (`n_used + 1` complex doubles), runs the selected
`DiffractionCorrection*` routine (code not under src/; it reports through
`dlp.status`, here a parameter), and then branches on `dlp.status`.  The
embedding carries ghost booleans recording whether `T_out` was allocated,
whether the source ever called `free` on it (it never does), and whether
ownership was transferred to the caller through the NumPy capsule. -/

inductive PyErr where
  | typeError : PyErr
  | indexError : PyErr
  | memoryError : PyErr
deriving DecidableEq

structure DriverReturn where
  /-- `none`: the call returns the freshly built output array.
      `some e`: the call returns NULL with the Python exception `e` set. -/
  ret : Option PyErr
  /-- `dlp.T_out` was malloc'd during the call. -/
  t_out_allocated : Bool
  /-- the call executed `free(dlp.T_out)` before returning. -/
  t_out_freed : Bool
  /-- ownership of `dlp.T_out` passed to the caller (success capsule). -/
  t_out_escaped : Bool
deriving DecidableEq

def fresnel_transform_post (arr_size start n_used : ℤ) (status : ℕ) : DriverReturn :=
  if start > arr_size then ⟨some .indexError, false, false, false⟩
  else if start + n_used > arr_size then ⟨some .indexError, false, false, false⟩
  else if status = 0 then ⟨none, true, false, true⟩
  else if status = 1 then ⟨some .typeError, true, false, false⟩
  else if status = 2 then ⟨some .indexError, true, false, false⟩
  else if status = 3 then ⟨some .memoryError, true, false, false⟩
  else if status = 4 then ⟨some .memoryError, true, false, false⟩
  else ⟨some .typeError, true, false, false⟩

/-! ## `besselJ0` integer-typed dispatch (src/rss_ringoccs/diffrec/src/_bessel.h)

The NumPy type numbers the dispatch tests, and the converter routine each
branch hands to `__get_one_real_from_one_real`. -/

inductive NpyType where
  | NPY_FLOAT : NpyType
  | NPY_DOUBLE : NpyType
  | NPY_LONGDOUBLE : NpyType
  | NPY_BYTE : NpyType
  | NPY_UBYTE : NpyType
  | NPY_SHORT : NpyType
  | NPY_USHORT : NpyType
  | NPY_INT : NpyType
  | NPY_UINT : NpyType
  | NPY_LONG : NpyType
  | NPY_ULONG : NpyType
  | NPY_LONGLONG : NpyType
  | NPY_ULONGLONG : NpyType
  | NPY_OTHER : NpyType
deriving DecidableEq

inductive J0Conv where
  | j0Float : J0Conv
  | j0Double : J0Conv
  | j0LongDouble : J0Conv
  | j0Char : J0Conv
  | j0UChar : J0Conv
  | j0Short : J0Conv
  | j0UShort : J0Conv
  | j0Int : J0Conv
  | j0UInt : J0Conv
  | j0Long : J0Conv
  | j0ULong : J0Conv
  | j0LongLong : J0Conv
deriving DecidableEq

inductive J0Outcome where
  | conv : J0Conv → J0Outcome
  | typeError : J0Outcome
deriving DecidableEq

/-- Embedding of the `typenum` if/else chain of `besselJ0`, in source order.
The source tests `NPY_ULONG` a second time (calling `BesselJ0_Long_Long` on
the data cast to `unsigned long long *`) where `NPY_ULONGLONG` was plainly
meant; the duplicate test is kept exactly as written. -/
def besselJ0_dispatch (t : NpyType) : J0Outcome :=
  if t = .NPY_FLOAT then .conv .j0Float
  else if t = .NPY_DOUBLE then .conv .j0Double
  else if t = .NPY_LONGDOUBLE then .conv .j0LongDouble
  else if t = .NPY_BYTE then .conv .j0Char
  else if t = .NPY_UBYTE then .conv .j0UChar
  else if t = .NPY_SHORT then .conv .j0Short
  else if t = .NPY_USHORT then .conv .j0UShort
  else if t = .NPY_INT then .conv .j0Int
  else if t = .NPY_UINT then .conv .j0UInt
  else if t = .NPY_LONG then .conv .j0Long
  else if t = .NPY_ULONG then .conv .j0ULong
  else if t = .NPY_LONGLONG then .conv .j0LongLong
  else if t = .NPY_ULONG then .conv .j0LongLong
  else .typeError

/-! ## `compute_norm_eq` (src/unnamed/part_003, lines 362-475)

The scalar branches: `PyLong_Check` then `PyArg_ParseTuple(args, "l", ...)`
(which converts the Python integer to a C `long` and fails for values
outside its range; 64-bit `long` per the platforms the sources target) and
return of the parsed value unchanged via `PyLong_FromLong`; `PyFloat_Check`
then `PyArg_ParseTuple(args, "d", ...)` and return via `PyFloat_FromDouble`.
Arrays go to the `Normeq_*` routines (code not under src/), represented by
the `normeqCall` constructor. -/

def LONG_MIN : ℤ := -(2 ^ 63)

def LONG_MAX : ℤ := 2 ^ 63 - 1

inductive PyNormEqArg where
  | pyInt : ℤ → PyNormEqArg
  | pyFloat : ℚ → PyNormEqArg
  | pyArray : NpyType → List ℚ → PyNormEqArg
deriving DecidableEq

inductive PyNormEqRet where
  | retInt : ℤ → PyNormEqRet
  | retFloat : ℚ → PyNormEqRet
  | pyError : PyNormEqRet
  | normeqCall : NpyType → List ℚ → PyNormEqRet
deriving DecidableEq

def compute_norm_eq : PyNormEqArg → PyNormEqRet
  | .pyInt n =>
      if LONG_MIN ≤ n ∧ n ≤ LONG_MAX then .retInt n else .pyError
  | .pyFloat q => .retFloat q
  | .pyArray t data =>
      if data.length = 0 then .pyError
      else if t = .NPY_FLOAT then .normeqCall t data
      else if t = .NPY_DOUBLE then .normeqCall t data
      else if t = .NPY_LONGDOUBLE then .normeqCall t data
      else if t = .NPY_SHORT then .normeqCall t data
      else if t = .NPY_INT then .normeqCall t data
      else if t = .NPY_LONG then .normeqCall t data
      else if t = .NPY_LONGLONG then .normeqCall t data
      else .pyError

/-! ## The Kaiser-Bessel window (src/rss_ringoccs/src/special_functions/kaiser_bessel.c) -/

/-- The source constant `ONE_PI` from `src/unnamed/part_000`, embedded as the
exact real the decimal literal denotes. -/
def ONE_PI : ℝ := 3.141592653589793238462643383279502880

/-- Modelled from the spec: `BesselI0`, the modified Bessel function of the
first kind of order zero, called by the Kaiser-Bessel window as
`rssringoccs_Bessel_I0_Double`; its implementation file is not among the
sources, and the spec describes it as the mathematical `I0` (accurate over
the whole real line), here its defining power series
`I0(x) = sum_k (x^2/4)^k / (k!)^2`. -/
noncomputable def rssringoccs_Bessel_I0_Double (x : ℝ) : ℝ :=
  tsum (fun k : ℕ => (x ^ 2 / 4) ^ k / ((Nat.factorial k : ℝ)) ^ 2)

/-- Embedding of `rssringoccs_Kaiser_Bessel_Double` (the `double`
instantiation of the `_define_kaiser_bessel` macro). -/
noncomputable def rssringoccs_Kaiser_Bessel_Double (x W alpha : ℝ) : ℝ :=
  let abs_x := |x|
  if alpha = 0 then
    if abs_x < 0.5 * W then 1 else 0
  else
    if abs_x < 0.5 * W then
      rssringoccs_Bessel_I0_Double
          ((alpha * ONE_PI) * Real.sqrt (1 - (2 * abs_x / W) * (2 * abs_x / W))) /
        rssringoccs_Bessel_I0_Double (alpha * ONE_PI)
    else 0

/-- Modelled from the spec: the rectangular window (`Rect`), `1` on
`|x| < W/2` and `0` elsewhere; its own source file is not among the
sources. -/
noncomputable def rect_window (x W : ℝ) : ℝ :=
  if |x| < W / 2 then 1 else 0

/-! ### Support lemmas for the modified Bessel series -/

lemma besselI0_term_nonneg (x : ℝ) (k : ℕ) :
    0 ≤ (x ^ 2 / 4) ^ k / ((Nat.factorial k : ℝ)) ^ 2 := by
  positivity

lemma besselI0_summable (x : ℝ) :
    Summable fun k : ℕ => (x ^ 2 / 4) ^ k / ((Nat.factorial k : ℝ)) ^ 2 := by
  refine Summable.of_nonneg_of_le (besselI0_term_nonneg x)
    (fun k => ?_) (Real.summable_pow_div_factorial (x ^ 2 / 4))
  have hfac : (0 : ℝ) < (Nat.factorial k : ℝ) := by
    exact_mod_cast Nat.factorial_pos k
  have hfac2 : (Nat.factorial k : ℝ) ≤ ((Nat.factorial k : ℝ)) ^ 2 := by
    nlinarith [Nat.one_le_iff_ne_zero.mpr (Nat.factorial_ne_zero k),
      (by exact_mod_cast Nat.one_le_iff_ne_zero.mpr (Nat.factorial_ne_zero k) :
        (1 : ℝ) ≤ (Nat.factorial k : ℝ))]
  have hnum : (0 : ℝ) ≤ (x ^ 2 / 4) ^ k := by positivity
  exact div_le_div_of_nonneg_left hnum hfac hfac2

lemma besselI0_one_le (x : ℝ) : 1 ≤ rssringoccs_Bessel_I0_Double x := by
  have h0 : ((x ^ 2 / 4) ^ (0 : ℕ) / ((Nat.factorial 0 : ℝ)) ^ 2) = 1 := by
    simp
  calc (1 : ℝ) = (x ^ 2 / 4) ^ (0 : ℕ) / ((Nat.factorial 0 : ℝ)) ^ 2 := h0.symm
    _ ≤ rssringoccs_Bessel_I0_Double x :=
        le_tsum (besselI0_summable x) 0 (fun j _ => besselI0_term_nonneg x j)

lemma besselI0_pos (x : ℝ) : 0 < rssringoccs_Bessel_I0_Double x :=
  lt_of_lt_of_le one_pos (besselI0_one_le x)

lemma besselI0_nonneg (x : ℝ) : 0 ≤ rssringoccs_Bessel_I0_Double x :=
  (besselI0_pos x).le

/-! ## Claim theorems -/

/-- C1: strategy dispatch of `fresnel_transform` is decided exactly by
`(use_fft, order, ecc, peri, perturb)`: nonzero `use_fft` selects the FFT
strategy; otherwise `order = 0` with `ecc = peri = 0` and all five
perturbation coefficients zero selects Newton, `order = 0` with
`ecc = peri = 0` and some perturbation coefficient nonzero selects
Perturbed Newton, `order = 0` with `ecc` or `peri` nonzero selects the
Elliptic correction, `order = 1` selects the Fresnel (quadratic)
correction, and every other order selects the Legendre correction. -/
theorem fresnel_transform_dispatch_strategy_selection
    (u o : ℕ) (ecc peri p0 p1 p2 p3 p4 : ℚ) :
    (u ≠ 0 →
      fresnel_transform_dispatch u o ecc peri p0 p1 p2 p3 p4 = .simpleFFT) ∧
    (u = 0 → o = 0 → ecc = 0 → peri = 0 →
      p0 = 0 → p1 = 0 → p2 = 0 → p3 = 0 → p4 = 0 →
      fresnel_transform_dispatch u o ecc peri p0 p1 p2 p3 p4 = .newton) ∧
    (u = 0 → o = 0 → ecc = 0 → peri = 0 →
      ¬(p0 = 0 ∧ p1 = 0 ∧ p2 = 0 ∧ p3 = 0 ∧ p4 = 0) →
      fresnel_transform_dispatch u o ecc peri p0 p1 p2 p3 p4 =
        .perturbedNewton) ∧
    (u = 0 → o = 0 → ¬(ecc = 0 ∧ peri = 0) →
      fresnel_transform_dispatch u o ecc peri p0 p1 p2 p3 p4 = .ellipse) ∧
    (u = 0 → o = 1 →
      fresnel_transform_dispatch u o ecc peri p0 p1 p2 p3 p4 = .fresnel) ∧
    (u = 0 → o ≠ 0 → o ≠ 1 →
      fresnel_transform_dispatch u o ecc peri p0 p1 p2 p3 p4 = .legendre) := by
  refine ⟨?_, ?_, ?_, ?_, ?_, ?_⟩ <;>
    intros <;> simp_all [fresnel_transform_dispatch]

/-- Witness for C1: each of the six selection rules exercised at a concrete
input. -/
theorem fresnel_transform_dispatch_strategy_selection_witness :
    fresnel_transform_dispatch 1 0 0 0 0 0 0 0 0 = .simpleFFT ∧
    fresnel_transform_dispatch 0 0 0 0 0 0 0 0 0 = .newton ∧
    fresnel_transform_dispatch 0 0 0 0 1 0 0 0 0 = .perturbedNewton ∧
    fresnel_transform_dispatch 0 0 1 0 0 0 0 0 0 = .ellipse ∧
    fresnel_transform_dispatch 0 1 0 0 0 0 0 0 0 = .fresnel ∧
    fresnel_transform_dispatch 0 2 0 0 0 0 0 0 0 = .legendre :=
  ⟨(fresnel_transform_dispatch_strategy_selection 1 0 0 0 0 0 0 0 0).1
      (by norm_num),
   (fresnel_transform_dispatch_strategy_selection 0 0 0 0 0 0 0 0 0).2.1
      rfl rfl rfl rfl rfl rfl rfl rfl rfl,
   (fresnel_transform_dispatch_strategy_selection 0 0 0 0 1 0 0 0 0).2.2.1
      rfl rfl rfl rfl (by norm_num),
   (fresnel_transform_dispatch_strategy_selection 0 0 1 0 0 0 0 0 0).2.2.2.1
      rfl rfl (by norm_num),
   (fresnel_transform_dispatch_strategy_selection 0 1 0 0 0 0 0 0 0).2.2.2.2.1
      rfl rfl,
   (fresnel_transform_dispatch_strategy_selection 0 2 0 0 0 0 0 0 0).2.2.2.2.2
      rfl (by norm_num) (by norm_num)⟩

/-- C2 (evaluation at the failing input): on a call whose selected
correction routine reports the range error (status 2: window width beyond
the available data, with `arr_size = 10`, `start = 2`, `n_used = 4` passing
the wrapper's own index checks so that `dlp.T_out` has been malloc'd), the
wrapper returns only the error — no partial output escapes — but never
frees `dlp.T_out`: the buffer is leaked, contradicting the claim that any
partially built output buffer is freed before the status is returned. -/
theorem fresnel_transform_error_leaks_t_out :
    (fresnel_transform_post 10 2 4 2).ret = some .indexError ∧
    (fresnel_transform_post 10 2 4 2).t_out_allocated = true ∧
    (fresnel_transform_post 10 2 4 2).t_out_freed = false ∧
    (fresnel_transform_post 10 2 4 2).t_out_escaped = false := by
  decide

/-- C9: the `typenum` dispatch of `besselJ0` tests `NPY_ULONG` twice in
place of `NPY_ULONGLONG`, so an unsigned 64-bit (`NPY_ULONGLONG`) array
matches no conversion branch and falls through to the default `TypeError`
path, while `NPY_ULONG` itself is handled by the first of the two
duplicate tests. -/
theorem besselJ0_ulonglong_falls_to_type_error :
    besselJ0_dispatch .NPY_ULONGLONG = .typeError ∧
    besselJ0_dispatch .NPY_ULONG = .conv .j0ULong := by
  decide

/-- C10 counterexample: a scalar Python int outside the C `long` range is
not returned unchanged — the `"l"` conversion of `PyArg_ParseTuple` fails
and the call raises instead. -/
theorem compute_norm_eq_scalar_int_overflow :
    compute_norm_eq (.pyInt (2 ^ 63)) = .pyError ∧
    compute_norm_eq (.pyInt (2 ^ 63)) ≠ .retInt (2 ^ 63) := by
  decide

/-- C10 (amended): a scalar Python int that fits in a signed 64-bit C
`long` is returned unchanged, and a scalar Python float is always returned
unchanged; neither computes a normalized equivalent width. -/
theorem compute_norm_eq_scalar_identity :
    (∀ n : ℤ, LONG_MIN ≤ n → n ≤ LONG_MAX →
      compute_norm_eq (.pyInt n) = .retInt n) ∧
    (∀ q : ℚ, compute_norm_eq (.pyFloat q) = .retFloat q) := by
  constructor
  · intro n h1 h2
    simp [compute_norm_eq, h1, h2]
  · intro q
    rfl

/-- Witness for C10's amended claim at `n = 5` and `q = 3/2`. -/
theorem compute_norm_eq_scalar_identity_witness :
    LONG_MIN ≤ (5 : ℤ) ∧ (5 : ℤ) ≤ LONG_MAX ∧
    compute_norm_eq (.pyInt 5) = .retInt 5 ∧
    compute_norm_eq (.pyFloat (3 / 2)) = .retFloat (3 / 2) :=
  ⟨by decide, by decide,
   compute_norm_eq_scalar_identity.1 5 (by decide) (by decide),
   compute_norm_eq_scalar_identity.2 (3 / 2)⟩

/-- C4: `LambertW_Double` returns `-1` exactly at `-1/e` (the source
constant `RCPR_EULER_E`), and for every argument strictly below `-1/e` it
returns NaN, the DomainError value. -/
theorem lambertW_at_and_below_neg_rcpr_e :
    LambertW_Double (.fin (-RCPR_EULER_E)) = .ret (.fin (-1)) ∧
    ∀ q : ℚ, q < -RCPR_EULER_E → LambertW_Double (.fin q) = .ret .nan := by
  constructor
  · have h1 : Fp.lt (.fin (-RCPR_EULER_E)) (.fin (-RCPR_EULER_E)) = false := by
      simp [Fp.lt]
    have h2 : Fp.beq (.fin (-RCPR_EULER_E)) (.fin (-RCPR_EULER_E)) = true := by
      simp [Fp.beq]
    simp [LambertW_Double, h1, h2]
  · intro q hq
    have h1 : Fp.lt (.fin (-RCPR_EULER_E)) (.fin q) = false := by
      simp [Fp.lt]
      linarith
    have h2 : Fp.beq (.fin q) (.fin (-RCPR_EULER_E)) = false := by
      simp [Fp.beq]
      exact ne_of_lt hq
    have h3 : Fp.lt (.fin q) (.fin (-RCPR_EULER_E)) = true := by
      simp [Fp.lt]
      exact hq
    simp [LambertW_Double, h1, h2, h3]

/-- Witness for C4 at `q = -1 < -1/e`. -/
theorem lambertW_at_and_below_neg_rcpr_e_witness :
    (-1 : ℚ) < -RCPR_EULER_E ∧ LambertW_Double (.fin (-1)) = .ret .nan :=
  ⟨by norm_num [RCPR_EULER_E],
   lambertW_at_and_below_neg_rcpr_e.2 (-1) (by norm_num [RCPR_EULER_E])⟩

/-- C5 counterexample: `LambertW_Double` applied to NaN does not fail with
DomainError (it does not return NaN): every comparison against NaN in the
source is false, so control falls through to the final `else` and the call
returns `INFINITY`. -/
theorem lambertW_nan_not_domain_error :
    LambertW_Double .nan ≠ .ret .nan ∧
    LambertW_Double .nan = .ret .posInf := by
  decide

/-- C5 (amended): `LambertW_Double` applied to NaN returns `+INFINITY`
rather than a DomainError NaN, so the blanket rule that every
math-primitive function fails with DomainError on NaN input does not hold
for LambertW. -/
theorem lambertW_nan_returns_infinity :
    LambertW_Double .nan = .ret .posInf := by
  decide

/-- C3: `Resolution_Inverse_Double` returns NaN (the DomainError value) for
every input `x <= 1` under the source's comparison, returns
`LambertW(P * e^P) - P` with `P = x/(1-x)` for every finite `x > 1`
(stated parametrically in the `LambertW` and `exp` primitives the source
calls), and returns `0` at `x = +INFINITY`. -/
theorem resolution_inverse_structure (lambertW exp : ℚ → ℚ) :
    (∀ x : Fp, Fp.le x (.fin 1) = true →
      Resolution_Inverse_Double lambertW exp x = .nan) ∧
    (∀ q : ℚ, 1 < q →
      Resolution_Inverse_Double lambertW exp (.fin q) =
        .fin (lambertW (q / (1 - q) * exp (q / (1 - q))) - q / (1 - q))) ∧
    Resolution_Inverse_Double lambertW exp .posInf = .fin 0 := by
  refine ⟨?_, ?_, rfl⟩
  · intro x hx
    simp [Resolution_Inverse_Double, hx]
  · intro q hq
    have h1 : Fp.le (.fin q) (.fin 1) = false := by
      simp [Fp.le]
      linarith
    simp [Resolution_Inverse_Double, h1, Fp.lt]

/-- Witness for C3 with the identity function standing in for the two
primitives, at `x = 0 <= 1`, at the finite `x = 2 > 1` (where
`P = -2` and `id (-2 * id (-2)) - (-2) = 6`), and at `x = +INFINITY`. -/
theorem resolution_inverse_structure_witness :
    Fp.le (.fin 0) (.fin 1) = true ∧
    Resolution_Inverse_Double id id (.fin 0) = .nan ∧
    (1 : ℚ) < 2 ∧
    Resolution_Inverse_Double id id (.fin 2) = .fin 6 ∧
    Resolution_Inverse_Double id id .posInf = .fin 0 := by
  refine ⟨by decide,
    (resolution_inverse_structure id id).1 (.fin 0) (by decide),
    by norm_num, ?_,
    (resolution_inverse_structure id id).2.2⟩
  have h := (resolution_inverse_structure id id).2.1 2 (by norm_num)
  rw [h]
  norm_num

/-- C7: with `alpha = 0` the Kaiser-Bessel window is exactly the
rectangular window: `1` when `|x| < W/2` and `0` otherwise, for every real
`x` and every `W`. -/
theorem kaiser_bessel_alpha_zero_is_rect (x W : ℝ) :
    rssringoccs_Kaiser_Bessel_Double x W 0 = rect_window x W := by
  have h : (0.5 : ℝ) * W = W / 2 := by ring
  simp [rssringoccs_Kaiser_Bessel_Double, rect_window, h]

/-- C6: for every `W > 0`, `alpha >= 0` and real `x`, the Kaiser-Bessel
window satisfies the four window axioms: it vanishes on `|x| >= W/2`, takes
the value `1` at `x = 0`, is even, and is everywhere nonnegative. -/
theorem kaiser_bessel_window_axioms (W alpha x : ℝ)
    (hW : 0 < W) (halpha : 0 ≤ alpha) :
    (W / 2 ≤ |x| → rssringoccs_Kaiser_Bessel_Double x W alpha = 0) ∧
    rssringoccs_Kaiser_Bessel_Double 0 W alpha = 1 ∧
    rssringoccs_Kaiser_Bessel_Double (-x) W alpha =
      rssringoccs_Kaiser_Bessel_Double x W alpha ∧
    0 ≤ rssringoccs_Kaiser_Bessel_Double x W alpha := by
  refine ⟨?_, ?_, ?_, ?_⟩
  · intro hx
    have hnot : ¬ |x| < 0.5 * W := not_lt.2 (by linarith)
    by_cases ha : alpha = 0 <;>
      simp [rssringoccs_Kaiser_Bessel_Double, ha, hnot]
  · have hcond : (0 : ℝ) < 0.5 * W := by linarith
    by_cases ha : alpha = 0
    · simp [rssringoccs_Kaiser_Bessel_Double, ha, hcond]
    · simp only [rssringoccs_Kaiser_Bessel_Double, ha, if_false, abs_zero,
        mul_zero, zero_div, zero_mul, sub_zero, Real.sqrt_one, mul_one,
        hcond, if_true]
      exact div_self (besselI0_pos (alpha * ONE_PI)).ne'
  · simp only [rssringoccs_Kaiser_Bessel_Double, abs_neg]
  · by_cases ha : alpha = 0 <;> by_cases hc : |x| < 0.5 * W <;>
      simp [rssringoccs_Kaiser_Bessel_Double, ha, hc] <;>
      exact div_nonneg (besselI0_nonneg _) (besselI0_nonneg _)

/-- Witness for C6 at `W = 2`, `alpha = 0`, `x = 3`. -/
theorem kaiser_bessel_window_axioms_witness :
    (0 : ℝ) < 2 ∧ (0 : ℝ) ≤ 0 ∧
    ((2 : ℝ) / 2 ≤ |(3 : ℝ)| → rssringoccs_Kaiser_Bessel_Double 3 2 0 = 0) ∧
    rssringoccs_Kaiser_Bessel_Double 0 2 0 = 1 ∧
    rssringoccs_Kaiser_Bessel_Double (-3) 2 0 =
      rssringoccs_Kaiser_Bessel_Double 3 2 0 ∧
    0 ≤ rssringoccs_Kaiser_Bessel_Double 3 2 0 :=
  ⟨by norm_num, le_refl 0,
   kaiser_bessel_window_axioms 2 0 3 (by norm_num) (le_refl 0)⟩
